import Mathlib

/-!
Shallow embedding of the retrieval / reranking / conversation pipeline of the
LLM-ChatBot-Demo repository, and proofs about it.

Sources embedded:
  app/core/retrievers/base_retriever.py   (Document)
  app/core/retrievers/hybrid_retriever.py (HybridRetriever.retrieve, .rerank)
  app/core/retrievers/reranker.py         (DashScopeReranker.rerank)
  app/core/chains/conversation_chain.py   (ConversationChain.get_response)
  app/api/routers/chat.py                 (conversation_chains, chat)

Scores are modelled as rationals; an Elasticsearch hit is given to the model as
its already-parsed fields (id, _source content/title, _score).  External
services (reranking service, LLM chain invocation) are parameters of the
functions that call them, returning Except to model raised exceptions.
-/

namespace ChatBot

/-- Document TypedDict of base_retriever.py.  `content` is `Option String`
because reranker.py line 55 reads it with `doc.get("content")`, which yields
None when the key is absent; the optional float fields are `Option ℚ`. -/
structure Document where
  id : String
  content : Option String
  title : String
  score : ℚ
  vector_score : Option ℚ
  keyword_score : Option ℚ
  rerank_score : Option ℚ
deriving DecidableEq, Repr

/-- One Elasticsearch hit as consumed by HybridRetriever.retrieve:
`hit["_id"]`, `hit["_source"]["content"]`, `hit["_source"].get("title", "")`
(modelled as `Option String`) and `hit["_score"]`. -/
structure Hit where
  id : String
  content : String
  title : Option String
  score : ℚ
deriving DecidableEq, Repr

/-- Python `str.strip()`: drop whitespace from both ends (used by the
`if not query.strip()` guards).  Defined over the character list so that it
is kernel-computable. -/
def pyStrip (s : String) : String :=
  String.mk ((s.data.dropWhile Char.isWhitespace).reverse.dropWhile
    Char.isWhitespace).reverse

/-- Document built from a vector-search hit (hybrid_retriever.py lines 108-116). -/
def vectorDoc (vw : ℚ) (h : Hit) : Document :=
  { id := h.id
    content := some h.content
    title := h.title.getD ""
    score := h.score * vw
    vector_score := some h.score
    keyword_score := none
    rerank_score := none }

/-- Document built from a keyword-search hit not seen before
(hybrid_retriever.py lines 123-131). -/
def keywordDoc (kw : ℚ) (h : Hit) : Document :=
  { id := h.id
    content := some h.content
    title := h.title.getD ""
    score := h.score * kw
    vector_score := none
    keyword_score := some h.score
    rerank_score := none }

/-- In-place update of the first document whose id matches (hybrid_retriever.py
lines 136-142): set `keyword_score` and recompute
`score = (vector_score or 0) * vector_weight + hit_score * keyword_weight`. -/
def updateKeywordScore (vw kw : ℚ) (hid : String) (ks : ℚ) :
    List Document → List Document
  | [] => []
  | d :: ds =>
    if d.id = hid then
      { d with keyword_score := some ks
               score := d.vector_score.getD 0 * vw + ks * kw } :: ds
    else d :: updateKeywordScore vw kw hid ks ds

/-- First loop of the merge (hybrid_retriever.py lines 106-118): append a
vector document for each hit whose id has not been seen. -/
def vectorPass (vw : ℚ) :
    List Hit → List Document → List String → List Document × List String
  | [], docs, seen => (docs, seen)
  | h :: hs, docs, seen =>
    if h.id ∈ seen then vectorPass vw hs docs seen
    else vectorPass vw hs (docs ++ [vectorDoc vw h]) (seen ++ [h.id])

/-- Second loop of the merge (hybrid_retriever.py lines 121-142): append a
keyword document for unseen ids, otherwise update the existing document. -/
def keywordPass (vw kw : ℚ) :
    List Hit → List Document → List String → List Document × List String
  | [], docs, seen => (docs, seen)
  | h :: hs, docs, seen =>
    if h.id ∈ seen then
      keywordPass vw kw hs (updateKeywordScore vw kw h.id h.score docs) seen
    else
      keywordPass vw kw hs (docs ++ [keywordDoc kw h]) (seen ++ [h.id])

/-- The fused candidate list `all_docs` of HybridRetriever.retrieve
(lines 101-142): vector pass then keyword pass, starting from empty. -/
def mergeResults (vw kw : ℚ) (vhits khits : List Hit) : List Document :=
  let vp := vectorPass vw vhits [] []
  (keywordPass vw kw khits vp.1 vp.2).1

/-- External reranker as seen by HybridRetriever: `Except` models a raised
exception. -/
def Reranker : Type :=
  String → List Document → Nat → Except String (List Document)

/-- HybridRetriever.rerank (hybrid_retriever.py lines 156-178): argument
guards, then delegate to `self.reranker.rerank`. -/
def hybridRerank (r : Reranker) (query : String) (documents : List Document)
    (topK : Nat) : Except String (List Document) :=
  if pyStrip query = "" then .error "查询文本不能为空"
  else if documents.isEmpty then .ok []
  else if topK < 1 then .error "top_k必须大于0"
  else r query documents topK

set_option linter.unusedVariables false in
/-- HybridRetriever.retrieve (hybrid_retriever.py lines 42-154) after the two
searches returned `vhits` and `khits`.  `minScore` is read from kwargs at line
63 and — exactly as in the source — never used afterwards.  An exception
escaping the try block is re-raised as a RuntimeError with a wrapping message
(lines 152-154). -/
def retrieve (r : Reranker) (vw kw : ℚ) (query : String) (topK : Nat)
    (minScore : ℚ) (vhits khits : List Hit) : Except String (List Document) :=
  if pyStrip query = "" then .error "查询文本不能为空"
  else if topK < 1 then .error "top_k必须大于0"
  else
    let allDocs := mergeResults vw kw vhits khits
    if topK < allDocs.length then
      match hybridRerank r query allDocs topK with
      | .ok docs => .ok docs
      | .error e => .error ("混合检索过程发生错误: " ++ e)
    else .ok (allDocs.take topK)

/-- The spec-side description of the merge order: ids in first-seen insertion
order, vector ids first, then keyword ids not already present. -/
def addSeenId (acc : List String) (i : String) : List String :=
  if i ∈ acc then acc else acc ++ [i]

/-- Fold `addSeenId` over a list of ids. -/
def firstSeenOrder : List String → List String → List String
  | [], acc => acc
  | i :: rest, acc => firstSeenOrder rest (addSeenId acc i)

/-- Spec-side id order of the fused list: vector ids in first-seen order
followed by new keyword ids in first-seen order. -/
def fusedIdOrder (vids kids : List String) : List String :=
  firstSeenOrder kids (firstSeenOrder vids [])

/-- Vector hits of the spec scenario in section 8: `[(A, 0.9), (B, 0.5)]`. -/
def exVectorHits : List Hit :=
  [{ id := "A", content := "alpha", title := none, score := 9/10 },
   { id := "B", content := "beta", title := none, score := 1/2 }]

/-- Keyword hits of the spec scenario in section 8: `[(B, 8.0), (C, 6.0)]`. -/
def exKeywordHits : List Hit :=
  [{ id := "B", content := "beta", title := none, score := 8 },
   { id := "C", content := "gamma", title := none, score := 6 }]

example :
    (mergeResults (7/10) (3/10) exVectorHits exKeywordHits).map Document.id
      = ["A", "B", "C"] := by decide

example :
    (mergeResults (7/10) (3/10) exVectorHits exKeywordHits).map Document.score
      = [63/100, 11/4, 9/5] := by
  simp [mergeResults, vectorPass, keywordPass, updateKeywordScore, vectorDoc,
    keywordDoc, exVectorHits, exKeywordHits]
  norm_num

/-- One entry of the `pairs` list submitted to the reranking service
(reranker.py lines 59-63). -/
structure RerankPair where
  query : String
  passage : String
  doc_id : String
deriving DecidableEq, Repr

/-- One entry of `response.output["results"]` (reranker.py lines 79-93). -/
structure RerankResult where
  doc_id : String
  score : ℚ
deriving DecidableEq, Repr

/-- The reranking-service response: `status_code` and `output["results"]`. -/
structure RerankResponse where
  status_code : Nat
  results : List RerankResult
deriving DecidableEq, Repr

/-- The external `dashscope.rerank.call`, taking the submitted pairs and the
top_k passed at reranker.py line 73; `Except` models a raised exception such
as ApiRequestException. -/
def RerankService : Type :=
  List RerankPair → Nat → Except String RerankResponse

/-- The pairs-building loop of DashScopeReranker.rerank (reranker.py lines
53-63): a document whose content is missing or empty is skipped. -/
def buildPairs (query : String) : List Document → List RerankPair
  | [] => []
  | d :: ds =>
    match d.content with
    | none => buildPairs query ds
    | some c =>
      if c = "" then buildPairs query ds
      else { query := query, passage := c, doc_id := d.id } :: buildPairs query ds

/-- The result-processing loop of DashScopeReranker.rerank (reranker.py lines
78-94): for each service result, find the first original document with that
id; copy it with `score` and `rerank_score` overwritten; skip results whose
id matches no document. -/
def applyRerankResults (documents : List Document) :
    List RerankResult → List Document
  | [] => []
  | r :: rs =>
    match documents.find? (fun d => d.id = r.doc_id) with
    | some d =>
      { d with score := r.score, rerank_score := some r.score }
        :: applyRerankResults documents rs
    | none => applyRerankResults documents rs

/-- DashScopeReranker.rerank (reranker.py lines 29-106): argument guards,
pair building, the service call, and response processing.  A non-200 status
or a raised exception becomes a RuntimeError (`Except.error`). -/
def dashScopeRerank (call : RerankService) (query : String)
    (documents : List Document) (topK : Nat) : Except String (List Document) :=
  if pyStrip query = "" then .error "查询文本不能为空"
  else if documents.isEmpty then .ok []
  else if topK < 1 then .error "top_k必须大于0"
  else
    let pairs := buildPairs query documents
    if pairs.isEmpty then .ok (documents.take topK)
    else
      match call pairs (min topK pairs.length) with
      | .error e => .error ("DashScope API请求错误: " ++ e)
      | .ok response =>
        if response.status_code = 200 then
          .ok (applyRerankResults documents (response.results.take topK))
        else .error "DashScope重排序API调用失败"

/-- Role of a chat-history message. -/
inductive Role where
  | user
  | assistant
deriving DecidableEq, Repr

/-- One message of `self.chat_history.messages`. -/
structure Message where
  role : Role
  content : String
deriving DecidableEq, Repr

/-- The value of `await self.chain.ainvoke(...)` on success: the answer text
and the metadata of the source documents (metadata modelled as opaque
strings). -/
structure ChainOutput where
  answer : String
  sources : List String
deriving DecidableEq, Repr

/-- The dict returned by ConversationChain.get_response: answer and sources. -/
structure QAResult where
  answer : String
  sources : List String
deriving DecidableEq, Repr

/-- ConversationChain.get_response (conversation_chain.py lines 152-194),
given the outcome of the chain invocation and the current history.  On
success the user and assistant messages are appended (lines 178-179) and the
answer with sources is returned; on any exception the apology dict is
returned and the history is untouched (lines 189-194). -/
def getResponse (invokeResult : Except String ChainOutput) (query : String)
    (history : List Message) : QAResult × List Message :=
  match invokeResult with
  | .ok out =>
    ({ answer := out.answer, sources := out.sources },
     history ++ [{ role := Role.user, content := query },
                 { role := Role.assistant, content := out.answer }])
  | .error _ =>
    ({ answer := "抱歉，处理您的问题时出现错误。", sources := [] }, history)

/-- A cached ConversationChain as far as the /chat router observes it: the
knowledge-base type it was constructed with (conversation_chain.py line 127). -/
structure ChainInstance where
  kb_type : String
deriving DecidableEq, Repr

/-- The session-cache step of the chat handler (chat.py lines 31-37): the
`conversation_chains` dict is an association list; a chain is created with
the request's kb_type only when the session id is absent, and the cached
chain is used otherwise. -/
def getOrCreateChain (chains : List (String × ChainInstance))
    (sessionId kbType : String) :
    List (String × ChainInstance) × ChainInstance :=
  match chains.find? (fun p => p.1 = sessionId) with
  | some p => (chains, p.2)
  | none =>
    let c : ChainInstance := { kb_type := kbType }
    (chains ++ [(sessionId, c)], c)

/-- Await events of the two searches inside HybridRetriever.retrieve. -/
inductive SearchEvent where
  | vectorStart
  | vectorEnd
  | keywordStart
  | keywordEnd
deriving DecidableEq, BEq, Repr

/-- The order in which the two search calls of HybridRetriever.retrieve are
issued and completed (hybrid_retriever.py lines 66-99): the body performs
`await es_client.search` for the vector query at line 68 and only then
`await es_client.search` for the keyword query at line 86, so each search
completes before the next statement runs. -/
def retrieveSearchEvents : List SearchEvent :=
  [SearchEvent.vectorStart, SearchEvent.vectorEnd,
   SearchEvent.keywordStart, SearchEvent.keywordEnd]

/-- Two searches overlap in time when the keyword search starts before the
vector search has ended. -/
def concurrentSearches (es : List SearchEvent) : Prop :=
  es.indexOf SearchEvent.keywordStart < es.indexOf SearchEvent.vectorEnd

/-- Claim C4, counterexample: in HybridRetriever.retrieve the vector search
and the keyword search are never both in flight — the keyword search does not
start before the vector search has completed, so the two searches are not
concurrent. -/
theorem searches_not_concurrent : ¬ concurrentSearches retrieveSearchEvents := by
  unfold concurrentSearches retrieveSearchEvents
  decide

/-- Claim C4, amended: within a single retrieval request the two searches are
issued sequentially — the vector search completes before the keyword search
starts. -/
theorem searches_sequential :
    retrieveSearchEvents.indexOf SearchEvent.vectorEnd
      < retrieveSearchEvents.indexOf SearchEvent.keywordStart := by
  unfold retrieveSearchEvents
  decide

/-- Claim C7: ConversationChain.get_response appends exactly one user message
and one assistant message to the session history when the turn succeeds, and
leaves the history unchanged when the turn fails. -/
theorem history_append_only_on_success (res : Except String ChainOutput)
    (query : String) (history : List Message) :
    (∀ e, res = Except.error e → (getResponse res query history).2 = history) ∧
    (∀ out, res = Except.ok out →
      (getResponse res query history).2
        = history ++ [{ role := Role.user, content := query },
                      { role := Role.assistant, content := out.answer }]) := by
  constructor
  · intro e he
    subst he
    rfl
  · intro out ho
    subst ho
    rfl

/-- Witness for claim C7 at a concrete failing turn: the history of one prior
message is unchanged. -/
theorem history_append_only_on_success_witness :
    (getResponse (Except.error "completion failed") "q"
        [{ role := Role.user, content := "hi" }]).2
      = [{ role := Role.user, content := "hi" }] :=
  (history_append_only_on_success (Except.error "completion failed") "q"
    [{ role := Role.user, content := "hi" }]).1 "completion failed" rfl

/-- Claim C8: when any step inside ConversationChain.get_response raises, the
returned payload is the fixed apology answer with an empty source list — the
exception is not propagated. -/
theorem failure_yields_apology (res : Except String ChainOutput)
    (query : String) (history : List Message) (e : String)
    (he : res = Except.error e) :
    (getResponse res query history).1
      = { answer := "抱歉，处理您的问题时出现错误。", sources := [] } := by
  subst he
  rfl

/-- Witness for claim C8 at a concrete failing retrieval. -/
theorem failure_yields_apology_witness :
    (getResponse (Except.error "retrieval failed") "q2" []).1
      = { answer := "抱歉，处理您的问题时出现错误。", sources := [] } :=
  failure_yields_apology (Except.error "retrieval failed") "q2" []
    "retrieval failed" rfl

/-- Claim C9: once a chain has been cached for a session id, a later request
with the same session id and any other kb_type reuses the cached chain and
leaves the cache unchanged; the chain's kb_type stays the one of the first
request. -/
theorem session_kb_type_fixed (chains : List (String × ChainInstance))
    (s k1 k2 : String)
    (habsent : chains.find? (fun p => p.1 = s) = none) :
    getOrCreateChain (getOrCreateChain chains s k1).1 s k2
        = ((getOrCreateChain chains s k1).1, (getOrCreateChain chains s k1).2)
      ∧ (getOrCreateChain chains s k1).2.kb_type = k1 := by
  unfold getOrCreateChain
  rw [habsent]
  simp [List.find?_append, habsent]

/-- Witness for claim C9: a session created with kb_type "kb_a" ignores a
later "kb_b" request. -/
theorem session_kb_type_fixed_witness :
    getOrCreateChain (getOrCreateChain [] "sess-1" "kb_a").1 "sess-1" "kb_b"
        = ((getOrCreateChain [] "sess-1" "kb_a").1,
           (getOrCreateChain [] "sess-1" "kb_a").2)
      ∧ (getOrCreateChain [] "sess-1" "kb_a").2.kb_type = "kb_a" :=
  session_kb_type_fixed [] "sess-1" "kb_a" "kb_b" rfl

/-- Every pair submitted to the reranking service comes from an input
document whose content is present and nonempty. -/
lemma buildPairs_mem_sound (query : String) :
    ∀ docs : List Document, ∀ p ∈ buildPairs query docs,
      ∃ d ∈ docs, d.content = some p.passage ∧ p.passage ≠ "" ∧ p.doc_id = d.id := by
  intro docs
  induction docs with
  | nil =>
    intro p hp
    simp [buildPairs] at hp
  | cons d ds ih =>
    intro p hp
    cases hcd : d.content with
    | none =>
      simp only [buildPairs, hcd] at hp
      obtain ⟨d', hmem, hrest⟩ := ih p hp
      exact ⟨d', List.mem_cons_of_mem d hmem, hrest⟩
    | some c =>
      simp only [buildPairs, hcd] at hp
      by_cases hc : c = ""
      · rw [if_pos hc] at hp
        obtain ⟨d', hmem, hrest⟩ := ih p hp
        exact ⟨d', List.mem_cons_of_mem d hmem, hrest⟩
      · rw [if_neg hc] at hp
        rcases List.mem_cons.mp hp with heq | hmem
        · subst heq
          exact ⟨d, List.mem_cons_self d ds, hcd, hc, rfl⟩
        · obtain ⟨d', hmem', hrest⟩ := ih p hmem
          exact ⟨d', List.mem_cons_of_mem d hmem', hrest⟩

/-- When every document lacks usable content, no pair is built. -/
lemma buildPairs_eq_nil_of_contentless (query : String) :
    ∀ docs : List Document,
      (∀ d ∈ docs, d.content = none ∨ d.content = some "") →
      buildPairs query docs = [] := by
  intro docs
  induction docs with
  | nil => intro _; rfl
  | cons d ds ih =>
    intro hall
    have hd := hall d (List.mem_cons_self d ds)
    have hds : buildPairs query ds = [] :=
      ih fun d' hd' => hall d' (List.mem_cons_of_mem d hd')
    rcases hd with hnone | hempty
    · simp only [buildPairs, hnone, hds]
    · simp [buildPairs, hempty, hds]

/-- Claim C10: the pairs submitted by DashScopeReranker.rerank exclude every
candidate with missing or empty content; and when no candidate has content,
the first top_k input documents are returned unchanged, for every possible
behaviour of the external service (so it is never consulted) and without an
error. -/
theorem contentless_docs_skip_rerank (query : String) (topK : Nat)
    (hq : pyStrip query ≠ "") (hk : 1 ≤ topK) :
    (∀ docs : List Document, ∀ p ∈ buildPairs query docs,
        ∃ d ∈ docs, d.content = some p.passage ∧ p.passage ≠ "" ∧ p.doc_id = d.id)
      ∧ (∀ docs : List Document,
          (∀ d ∈ docs, d.content = none ∨ d.content = some "") →
          ∀ call : RerankService,
            dashScopeRerank call query docs topK = Except.ok (docs.take topK)) := by
  refine ⟨buildPairs_mem_sound query, ?_⟩
  intro docs hall call
  have hbp : buildPairs query docs = [] :=
    buildPairs_eq_nil_of_contentless query docs hall
  unfold dashScopeRerank
  rw [if_neg hq]
  cases docs with
  | nil => simp
  | cons d ds =>
    rw [if_neg (by simp), if_neg (by omega)]
    simp [hbp]

/-- Witness for claim C10: two contentless candidates, a service that would
fail if consulted; the first candidate is returned unchanged. -/
theorem contentless_docs_skip_rerank_witness :
    dashScopeRerank (fun _ _ => Except.error "service down") "q"
        [{ id := "A", content := none, title := "", score := 1,
           vector_score := none, keyword_score := none, rerank_score := none },
         { id := "B", content := some "", title := "", score := 2,
           vector_score := none, keyword_score := none, rerank_score := none }] 1
      = Except.ok
          ([{ id := "A", content := none, title := "", score := 1,
              vector_score := none, keyword_score := none, rerank_score := none },
            { id := "B", content := some "", title := "", score := 2,
              vector_score := none, keyword_score := none, rerank_score := none }].take 1) :=
  (contentless_docs_skip_rerank "q" 1 (by decide) (by decide)).2
    [{ id := "A", content := none, title := "", score := 1,
       vector_score := none, keyword_score := none, rerank_score := none },
     { id := "B", content := some "", title := "", score := 2,
       vector_score := none, keyword_score := none, rerank_score := none }]
    (by decide) (fun _ _ => Except.error "service down")

/-- Claim C1, counterexample: with the fused candidate list of the section-8
scenario (three documents) and top_k = 2, a reranker that always fails makes
HybridRetriever.retrieve itself fail with a wrapped RuntimeError — it does
not return the fused ranking truncated to top_k. -/
theorem rerank_failure_cex :
    retrieve (fun _ _ _ => Except.error "api down") (7/10) (3/10) "q" 2 0
        exVectorHits exKeywordHits
      = Except.error ("混合检索过程发生错误: " ++ "api down") := by
  rfl

/-- Claim C1, amended: whenever the fused candidate list is longer than top_k
and the reranker fails, HybridRetriever.retrieve propagates the failure as a
RuntimeError instead of falling back to the fused ranking. -/
theorem rerank_failure_propagates (r : Reranker)
    (hr : ∀ q ds n, ∃ e, r q ds n = Except.error e)
    (vw kw minScore : ℚ) (query : String) (topK : Nat) (vhits khits : List Hit)
    (hq : pyStrip query ≠ "") (hk : 1 ≤ topK)
    (hlen : topK < (mergeResults vw kw vhits khits).length) :
    ∃ e, retrieve r vw kw query topK minScore vhits khits = Except.error e := by
  obtain ⟨e, he⟩ := hr query (mergeResults vw kw vhits khits) topK
  have hne : (mergeResults vw kw vhits khits).isEmpty = false := by
    rcases h : mergeResults vw kw vhits khits with _ | ⟨a, as⟩
    · rw [h] at hlen
      simp at hlen
    · rfl
  refine ⟨"混合检索过程发生错误: " ++ e, ?_⟩
  simp only [retrieve, hybridRerank]
  rw [if_neg hq, if_neg (by omega : ¬ topK < 1), if_pos hlen, if_neg hq]
  rw [hne]
  simp only [Bool.false_eq_true, if_false]
  rw [if_neg (by omega : ¬ topK < 1), he]

/-- Witness for claim C1 (amended) at the section-8 scenario with top_k = 2
and an always-failing reranker. -/
theorem rerank_failure_propagates_witness :
    ∃ e, retrieve (fun _ _ _ => Except.error "api down") (7/10) (3/10) "q" 2 0
        exVectorHits exKeywordHits = Except.error e :=
  rerank_failure_propagates (fun _ _ _ => Except.error "api down")
    (fun _ _ _ => ⟨"api down", rfl⟩) (7/10) (3/10) 0 "q" 2
    exVectorHits exKeywordHits (by decide) (by decide) (by decide)

/-- Claim C2, counterexample: for the section-8 scenario the fused candidate
list comes out in first-seen insertion order A, B, C — not in the
score-descending order B, C, A that the claim states. -/
theorem fused_order_cex :
    (mergeResults (7/10) (3/10) exVectorHits exKeywordHits).map Document.id
        = ["A", "B", "C"]
      ∧ (mergeResults (7/10) (3/10) exVectorHits exKeywordHits).map Document.id
        ≠ ["B", "C", "A"] := by
  decide

/-- Claim C3: the code is wrong — `min_score` is read from kwargs at
hybrid_retriever.py line 63, documented in the docstring as a minimum score
threshold, and then never applied; here a document with fused score 0.63 is
returned although min_score = 10 was supplied. -/
theorem min_score_ignored_bug :
    retrieve (fun _ _ _ => Except.error "unused") (7/10) (3/10) "q" 3 10
        [{ id := "A", content := "alpha", title := none, score := 9/10 }] []
      = Except.ok [{ id := "A", content := some "alpha", title := "",
                     score := 9/10 * (7/10), vector_score := some (9/10),
                     keyword_score := none, rerank_score := none }]
      ∧ ((9:ℚ)/10 * (7/10)) < 10 := by
  constructor
  · rfl
  · norm_num

/-- The in-place keyword-score update does not move, add or remove any
document: the id sequence is unchanged. -/
lemma updateKeywordScore_map_id (vw kw : ℚ) (hid : String) (ks : ℚ) :
    ∀ docs : List Document,
      (updateKeywordScore vw kw hid ks docs).map Document.id
        = docs.map Document.id := by
  intro docs
  induction docs with
  | nil => rfl
  | cons d ds ih =>
    by_cases h : d.id = hid
    · simp [updateKeywordScore, h]
    · simp [updateKeywordScore, h, ih]

/-- The vector pass projects to the first-seen id fold: both the id sequence
of the accumulated documents and the seen-id list equal
`firstSeenOrder` of the hit ids over the starting seen list. -/
lemma vectorPass_map_id (vw : ℚ) :
    ∀ (hs : List Hit) (docs : List Document) (seen : List String),
      seen = docs.map Document.id →
      (vectorPass vw hs docs seen).1.map Document.id
          = firstSeenOrder (hs.map Hit.id) seen
        ∧ (vectorPass vw hs docs seen).2
          = firstSeenOrder (hs.map Hit.id) seen := by
  intro hs
  induction hs with
  | nil =>
    intro docs seen hseen
    exact ⟨hseen.symm, rfl⟩
  | cons h hs ih =>
    intro docs seen hseen
    by_cases hmem : h.id ∈ seen
    · simp only [vectorPass, if_pos hmem, List.map_cons, firstSeenOrder,
        addSeenId, if_pos hmem]
      exact ih docs seen hseen
    · simp only [vectorPass, if_neg hmem, List.map_cons, firstSeenOrder,
        addSeenId, if_neg hmem]
      exact ih (docs ++ [vectorDoc vw h]) (seen ++ [h.id])
        (by simp [hseen, vectorDoc])

/-- The keyword pass projects to the same first-seen id fold: in-place score
updates keep the id sequence, new ids are appended. -/
lemma keywordPass_map_id (vw kw : ℚ) :
    ∀ (hs : List Hit) (docs : List Document) (seen : List String),
      seen = docs.map Document.id →
      (keywordPass vw kw hs docs seen).1.map Document.id
          = firstSeenOrder (hs.map Hit.id) seen
        ∧ (keywordPass vw kw hs docs seen).2
          = firstSeenOrder (hs.map Hit.id) seen := by
  intro hs
  induction hs with
  | nil =>
    intro docs seen hseen
    exact ⟨hseen.symm, rfl⟩
  | cons h hs ih =>
    intro docs seen hseen
    by_cases hmem : h.id ∈ seen
    · simp only [keywordPass, if_pos hmem, List.map_cons, firstSeenOrder,
        addSeenId, if_pos hmem]
      exact ih (updateKeywordScore vw kw h.id h.score docs) seen
        (hseen.trans (updateKeywordScore_map_id vw kw h.id h.score docs).symm)
    · simp only [keywordPass, if_neg hmem, List.map_cons, firstSeenOrder,
        addSeenId, if_neg hmem]
      exact ih (docs ++ [keywordDoc kw h]) (seen ++ [h.id])
        (by simp [hseen, keywordDoc])

/-- Claim C2, amended: the fused candidate list is not sorted by score; it
stays in first-seen insertion order — vector-discovered ids first, in vector
order, followed by keyword-only ids in keyword order — for all weights and
hit lists. -/
theorem fused_order_insertion (vw kw : ℚ) (vhits khits : List Hit) :
    (mergeResults vw kw vhits khits).map Document.id
      = fusedIdOrder (vhits.map Hit.id) (khits.map Hit.id) := by
  have hv := vectorPass_map_id vw vhits [] [] rfl
  have hseen : (vectorPass vw vhits [] []).2
      = (vectorPass vw vhits [] []).1.map Document.id := by
    rw [hv.1, hv.2]
  have hk := keywordPass_map_id vw kw khits (vectorPass vw vhits [] []).1
    (vectorPass vw vhits [] []).2 hseen
  simp only [mergeResults, fusedIdOrder]
  rw [hk.1, hv.2]

/-- The fused-score invariant of the merge: every document's score is the
weighted sum of its two per-signal scores, an absent signal counting as 0. -/
def scoreInvariant (vw kw : ℚ) (d : Document) : Prop :=
  d.score = d.vector_score.getD 0 * vw + d.keyword_score.getD 0 * kw

lemma scoreInvariant_vectorDoc (vw kw : ℚ) (h : Hit) :
    scoreInvariant vw kw (vectorDoc vw h) := by
  simp [scoreInvariant, vectorDoc]

lemma scoreInvariant_keywordDoc (vw kw : ℚ) (h : Hit) :
    scoreInvariant vw kw (keywordDoc kw h) := by
  simp [scoreInvariant, keywordDoc]

lemma scoreInvariant_updateKeywordScore (vw kw : ℚ) (hid : String) (ks : ℚ) :
    ∀ docs : List Document, (∀ d ∈ docs, scoreInvariant vw kw d) →
      ∀ d ∈ updateKeywordScore vw kw hid ks docs, scoreInvariant vw kw d := by
  intro docs
  induction docs with
  | nil =>
    intro _ d hd
    simp [updateKeywordScore] at hd
  | cons d0 ds ih =>
    intro hall d hd
    by_cases h : d0.id = hid
    · rw [updateKeywordScore, if_pos h] at hd
      rcases List.mem_cons.mp hd with heq | hmem
      · subst heq
        simp [scoreInvariant]
      · exact hall d (List.mem_cons_of_mem d0 hmem)
    · rw [updateKeywordScore, if_neg h] at hd
      rcases List.mem_cons.mp hd with heq | hmem
      · subst heq
        exact hall _ (List.mem_cons_self _ _)
      · exact ih (fun d' hd' => hall d' (List.mem_cons_of_mem d0 hd')) d hmem

lemma scoreInvariant_vectorPass (vw kw : ℚ) :
    ∀ (hs : List Hit) (docs : List Document) (seen : List String),
      (∀ d ∈ docs, scoreInvariant vw kw d) →
      ∀ d ∈ (vectorPass vw hs docs seen).1, scoreInvariant vw kw d := by
  intro hs
  induction hs with
  | nil =>
    intro docs seen hall
    exact hall
  | cons h hs ih =>
    intro docs seen hall
    by_cases hmem : h.id ∈ seen
    · rw [vectorPass, if_pos hmem]
      exact ih docs seen hall
    · rw [vectorPass, if_neg hmem]
      refine ih (docs ++ [vectorDoc vw h]) (seen ++ [h.id]) ?_
      intro d hd
      rcases List.mem_append.mp hd with hdocs | hnew
      · exact hall d hdocs
      · rw [List.mem_singleton.mp hnew]
        exact scoreInvariant_vectorDoc vw kw h

lemma scoreInvariant_keywordPass (vw kw : ℚ) :
    ∀ (hs : List Hit) (docs : List Document) (seen : List String),
      (∀ d ∈ docs, scoreInvariant vw kw d) →
      ∀ d ∈ (keywordPass vw kw hs docs seen).1, scoreInvariant vw kw d := by
  intro hs
  induction hs with
  | nil =>
    intro docs seen hall
    exact hall
  | cons h hs ih =>
    intro docs seen hall
    by_cases hmem : h.id ∈ seen
    · rw [keywordPass, if_pos hmem]
      exact ih (updateKeywordScore vw kw h.id h.score docs) seen
        (scoreInvariant_updateKeywordScore vw kw h.id h.score docs hall)
    · rw [keywordPass, if_neg hmem]
      refine ih (docs ++ [keywordDoc kw h]) (seen ++ [h.id]) ?_
      intro d hd
      rcases List.mem_append.mp hd with hdocs | hnew
      · exact hall d hdocs
      · rw [List.mem_singleton.mp hnew]
        exact scoreInvariant_keywordDoc vw kw h

/-- Claim C5: a fused document carrying both a vector score and a keyword
score has fused score exactly `vector_score * vector_weight +
keyword_score * keyword_weight` — additive fusion. -/
theorem fusion_additive (vw kw : ℚ) (vhits khits : List Hit)
    (d : Document) (vs ks : ℚ)
    (hmem : d ∈ mergeResults vw kw vhits khits)
    (hvs : d.vector_score = some vs) (hks : d.keyword_score = some ks) :
    d.score = vs * vw + ks * kw := by
  have hinv : scoreInvariant vw kw d := by
    refine scoreInvariant_keywordPass vw kw khits (vectorPass vw vhits [] []).1
      (vectorPass vw vhits [] []).2 ?_ d ?_
    · exact scoreInvariant_vectorPass vw kw vhits [] [] (by intro d hd; simp at hd)
    · simpa [mergeResults] using hmem
  rw [scoreInvariant, hvs, hks] at hinv
  simpa using hinv

/-- Document B as it appears in the fused list of the section-8 scenario:
found by both searches, fused score 2.75. -/
def docBFused : Document :=
  { id := "B", content := some "beta", title := "", score := 11/4,
    vector_score := some (1/2), keyword_score := some 8, rerank_score := none }

/-- Witness for claim C5: document B of the section-8 scenario, found by both
searches, has fused score 0.5 * 0.7 + 8 * 0.3. -/
theorem fusion_additive_witness :
    docBFused ∈ mergeResults (7/10) (3/10) exVectorHits exKeywordHits
      ∧ docBFused.score = (1/2) * (7/10) + 8 * (3/10) := by
  have hmem : docBFused ∈ mergeResults (7/10) (3/10) exVectorHits exKeywordHits := by
    simp [docBFused, mergeResults, vectorPass, keywordPass, updateKeywordScore,
      vectorDoc, keywordDoc, exVectorHits, exKeywordHits]
    norm_num
  exact ⟨hmem, fusion_additive (7/10) (3/10) exVectorHits exKeywordHits
    docBFused (1/2) 8 hmem rfl rfl⟩

/-- A document located by id lookup has the looked-up id. -/
lemma find?_id_eq {documents : List Document} {tid : String} {d : Document}
    (hf : documents.find? (fun d => d.id = tid) = some d) : d.id = tid := by
  have h := List.find?_some hf
  simpa using h

/-- Every document produced by the rerank result-processing loop is a copy of
some original document with only `score` and `rerank_score` overwritten by a
service result whose id matches. -/
lemma applyRerankResults_sound (documents : List Document) :
    ∀ rs : List RerankResult, ∀ d' ∈ applyRerankResults documents rs,
      ∃ r ∈ rs, ∃ d ∈ documents, d.id = r.doc_id
        ∧ d' = { d with score := r.score, rerank_score := some r.score } := by
  intro rs
  induction rs with
  | nil =>
    intro d' hd'
    simp [applyRerankResults] at hd'
  | cons r rs ih =>
    intro d' hd'
    cases hf : documents.find? (fun d => d.id = r.doc_id) with
    | none =>
      simp only [applyRerankResults, hf] at hd'
      obtain ⟨r', hr', rest⟩ := ih d' hd'
      exact ⟨r', List.mem_cons_of_mem r hr', rest⟩
    | some d =>
      simp only [applyRerankResults, hf] at hd'
      rcases List.mem_cons.mp hd' with heq | hmem
      · refine ⟨r, List.mem_cons_self r rs, d, List.mem_of_find?_eq_some hf,
          ?_, heq⟩
        exact find?_id_eq hf
      · obtain ⟨r', hr', rest⟩ := ih d' hmem
        exact ⟨r', List.mem_cons_of_mem r hr', rest⟩

/-- Claim C6: on a successful service call (status 200), DashScopeReranker
returns only copies of input documents in which `score` and `rerank_score`
are set to a service-returned score for a matching result id; id, content,
title, vector_score and keyword_score are unchanged, and the call succeeds
even if some service results match no submitted candidate. -/
theorem rerank_preserves_fields (call : RerankService) (query : String)
    (documents : List Document) (topK : Nat) (response : RerankResponse)
    (hq : pyStrip query ≠ "") (hne : documents ≠ []) (hk : 1 ≤ topK)
    (hp : buildPairs query documents ≠ [])
    (hcall : call (buildPairs query documents)
        (min topK (buildPairs query documents).length) = Except.ok response)
    (hstatus : response.status_code = 200) :
    ∃ out, dashScopeRerank call query documents topK = Except.ok out
      ∧ ∀ d' ∈ out, ∃ d ∈ documents,
          d'.id = d.id ∧ d'.content = d.content ∧ d'.title = d.title
            ∧ d'.vector_score = d.vector_score
            ∧ d'.keyword_score = d.keyword_score
            ∧ d'.rerank_score = some d'.score
            ∧ ∃ r ∈ response.results, r.doc_id = d.id ∧ d'.score = r.score := by
  refine ⟨applyRerankResults documents (response.results.take topK), ?_, ?_⟩
  · simp only [dashScopeRerank]
    rw [if_neg hq, if_neg (by simp [hne]), if_neg (by omega : ¬ topK < 1),
      if_neg (by simp [hp]), hcall]
    simp [hstatus]
  · intro d' hd'
    obtain ⟨r, hr, d, hd, hid, heq⟩ :=
      applyRerankResults_sound documents (response.results.take topK) d' hd'
    subst heq
    exact ⟨d, hd, rfl, rfl, rfl, rfl, rfl, rfl,
      r, List.mem_of_mem_take hr, hid.symm, rfl⟩

/-- Input documents for the claim C6 witness. -/
def exRerankDocs : List Document :=
  [{ id := "A", content := some "alpha", title := "tA", score := 1,
     vector_score := some 1, keyword_score := none, rerank_score := none },
   { id := "B", content := some "beta", title := "tB", score := 2,
     vector_score := none, keyword_score := some 2, rerank_score := none }]

/-- Service response for the claim C6 witness: one matching result and one
result whose id resolves to no submitted candidate. -/
def exRerankResponse : RerankResponse :=
  { status_code := 200,
    results := [{ doc_id := "A", score := 5 }, { doc_id := "Z", score := 4 }] }

/-- Witness for claim C6 at a concrete successful service call. -/
theorem rerank_preserves_fields_witness :
    ∃ out, dashScopeRerank (fun _ _ => Except.ok exRerankResponse) "q"
          exRerankDocs 2 = Except.ok out
      ∧ ∀ d' ∈ out, ∃ d ∈ exRerankDocs,
          d'.id = d.id ∧ d'.content = d.content ∧ d'.title = d.title
            ∧ d'.vector_score = d.vector_score
            ∧ d'.keyword_score = d.keyword_score
            ∧ d'.rerank_score = some d'.score
            ∧ ∃ r ∈ exRerankResponse.results, r.doc_id = d.id ∧ d'.score = r.score :=
  rerank_preserves_fields (fun _ _ => Except.ok exRerankResponse) "q"
    exRerankDocs 2 exRerankResponse (by decide) (by decide) (by decide)
    (by decide) rfl rfl

end ChatBot
